import Mathlib

/-!
Shallow embedding of the DoH endpoint core of this nextdns fork: the
`DOHEndpoint` operations (`Equal`, `String`, `Exchange`, the lazy transport
resolution performed by `RoundTrip`, and `endpointAddrs`) together with the
DoH3 capability prober (`SupportsDoH3`, `probeDoH3`, `probeDoH3Request`).
Network collaborators (the QUIC dial primitive and the HTTP round trips)
are oracles passed in as function arguments, and each probe additionally
returns the trace of attempts it performs, so that statements about which
network operations happen (and in which order) are expressible.
-/

set_option autoImplicit false
set_option linter.unusedVariables false

namespace NextDNS

/-- Errors the Go code observes from its collaborators: `deadlineExceeded`
models `context.DeadlineExceeded`, `eof` models `io.EOF`, `unknownAuthority`
models `x509.UnknownAuthorityError` carrying the offending certificate's
subject and issuer, and `other` models any other non-nil Go error value. -/
inductive GoErr where
  | deadlineExceeded
  | eof
  | unknownAuthority (subject issuer : String)
  | other (msg : String)
  deriving DecidableEq

/-- Models Go `strings.Contains(s, ":")` (a one-character needle, so
substring containment is character containment), through the character
list of the string so that it evaluates by kernel reduction. -/
def containsColon (s : String) : Bool :=
  s.data.contains ':'

/-- Models Go `net.JoinHostPort`: a host containing a colon is bracketed. -/
def joinHostPort (host port : String) : String :=
  if containsColon host then "[" ++ host ++ "]:" ++ port
  else host ++ ":" ++ port

/-- The transport handle stored in a `DOHEndpoint`. `newTransportH3` and
`newTransportH2` are external collaborators, so the handle is modelled
symbolically by what it is bound to: the variant, the hostname and path of
the endpoint descriptor it received, and the ordered address list. -/
inductive EndpointTransport where
  | h3 (hostname path : String) (addrs : List String)
  | h2 (hostname path : String) (addrs : List String)
  deriving DecidableEq

/-- Model of the Go `DOHEndpoint` struct. The unexported `sync.Once` and
`transport` fields become `onceDone` (whether `once.Do` has already run)
and `transport`; the `onConnect` callback takes part in no claim and is
omitted. -/
structure DOHEndpoint where
  Hostname : String
  Path : String
  Bootstrap : List String
  ALPN : List String
  DoH3Supported : Bool
  FastestIP : String
  onceDone : Bool
  transport : Option EndpointTransport
  deriving DecidableEq

/-- The per-address normalization step inside `endpointAddrs`: addresses
already containing a colon are left untouched, otherwise port 443 is
joined on. -/
def normAddr (ip : String) : String :=
  if containsColon ip then ip else joinHostPort ip "443"

/-- Models `endpointAddrs`: normalize every bootstrap address, and when
`FastestIP` is non-empty put its normalized form first, filtering out every
equal address from the rest (preserving their order). -/
def endpointAddrs (e : DOHEndpoint) : List String :=
  let addrs := e.Bootstrap.map normAddr
  if e.FastestIP ≠ "" then
    let fastest := normAddr e.FastestIP
    fastest :: addrs.filter (fun a => a != fastest)
  else
    addrs

/-- Models `strings.EqualFold` by comparing the character-by-character
lowercasings; this is faithful for the ASCII hostnames involved here. -/
def equalFold (a b : String) : Bool :=
  a.data.map Char.toLower == b.data.map Char.toLower

/-- Models the `once.Do` body of `DOHEndpoint.RoundTrip` as a state
transition: on the first call (`onceDone = false`) with no pre-set
transport, compute the ordered addresses, rewrite the hostname
`dns.nextdns.io` (case-insensitively) to `doh3.dns.nextdns.io` when
`DoH3Supported` is set, and store the H3 or H2 transport handle; every
later call leaves the state untouched. `sync.Once` serializes racing
callers, so the concurrent first use is modelled by iterating this step. -/
def resolveTransport (e : DOHEndpoint) : DOHEndpoint :=
  if e.onceDone then e
  else if e.transport.isSome then { e with onceDone := true }
  else
    let addrs := endpointAddrs e
    if e.DoH3Supported then
      if equalFold e.Hostname "dns.nextdns.io" then
        { e with Hostname := "doh3.dns.nextdns.io",
                 transport := some (EndpointTransport.h3 "doh3.dns.nextdns.io" e.Path addrs),
                 onceDone := true }
      else
        { e with transport := some (EndpointTransport.h3 e.Hostname e.Path addrs),
                 onceDone := true }
    else
      { e with transport := some (EndpointTransport.h2 e.Hostname e.Path addrs),
               onceDone := true }

/-- Models the `*DOHEndpoint` branch of `DOHEndpoint.Equal`: hostname,
path, bootstrap length, then the element-by-element bootstrap comparison
(the Go index loop together with the length guard is list equality). -/
def DOHEndpoint.Equal (e e2 : DOHEndpoint) : Bool :=
  if e.Hostname != e2.Hostname || e.Path != e2.Path ||
      e.Bootstrap.length != e2.Bootstrap.length then
    false
  else
    e.Bootstrap == e2.Bootstrap

/-- Models Go `strings.Join` with the given separator. -/
def stringsJoin (sep : String) : List String → String
  | [] => ""
  | [a] => a
  | a :: l => a ++ sep ++ stringsJoin sep l

/-- Models `DOHEndpoint.String`: `https://<hostname><path>` with a
`#ip1,ip2,...` suffix when bootstrap addresses are present. -/
def DOHEndpoint.String' (e : DOHEndpoint) : String :=
  if e.Bootstrap.length != 0 then
    "https://" ++ e.Hostname ++ e.Path ++ "#" ++ stringsJoin "," e.Bootstrap
  else
    "https://" ++ e.Hostname ++ e.Path

/-- The loop of `probeDoH3` over the bootstrap addresses, carrying the Go
`lastErr` variable. `dial` is the `quic.DialAddrEarly` collaborator keyed
by the dialed address (`none` means the handshake succeeded). Returns the
Go result (`none` = nil error) together with the list of addresses dialed,
in order. -/
def probeDoH3Loop (dial : String → Option GoErr) :
    List String → Option GoErr → Option GoErr × List String
  | [], lastErr => (lastErr, [])
  | ip :: rest, lastErr =>
    let addr := joinHostPort ip "443"
    match dial addr with
    | none => (none, [addr])
    | some e =>
      let r := probeDoH3Loop dial rest (some e)
      (r.fst, addr :: r.snd)

/-- Models `probeDoH3`: an empty bootstrap list yields
`context.DeadlineExceeded` without dialing; otherwise each address is
dialed in order with port 443 joined on, the first successful handshake
wins, and after all failures the last error is returned. -/
def probeDoH3 (dial : String → Option GoErr) (bootstrapIPs : List String) :
    Option GoErr × List String :=
  if bootstrapIPs.isEmpty then (some GoErr.deadlineExceeded, [])
  else probeDoH3Loop dial bootstrapIPs none

/-- One request attempt of `probeDoH3Request`: the single bootstrap address
the HTTP/3 transport is scoped to, and the request handed to it. -/
structure H3Req where
  ip : String
  url : String
  method : String
  contentType : String
  body : List Nat
  deriving DecidableEq

/-- The request `probeDoH3Request` builds for one address: an HTTP/3
transport scoped to exactly `ip`, carrying a POST of an empty body to
`https://<endpoint>/dns-query` with the DNS media type. -/
def mkH3Req (endpoint ip : String) : H3Req :=
  { ip := ip
    url := "https://" ++ endpoint ++ "/dns-query"
    method := "POST"
    contentType := "application/dns-message"
    body := [] }

/-- The Go success condition `err == nil && resp.StatusCode == 200` for a
round-trip outcome. -/
def is200 : Except GoErr Nat → Bool
  | Except.ok code => code == 200
  | Except.error _ => false

/-- The loop of `probeDoH3Request`: for each address in order, build the
single-address transport and request and round-trip it (`rt3` is that
collaborator, returning an error or a status code); a 200 status returns
success immediately, anything else moves on; exhaustion yields
`context.DeadlineExceeded`. The trace records each attempt in order. -/
def probeDoH3RequestLoop (rt3 : H3Req → Except GoErr Nat) (endpoint : String) :
    List String → Option GoErr × List H3Req
  | [] => (some GoErr.deadlineExceeded, [])
  | ip :: rest =>
    let req := mkH3Req endpoint ip
    if is200 (rt3 req) then (none, [req])
    else
      let r := probeDoH3RequestLoop rt3 endpoint rest
      (r.fst, req :: r.snd)

/-- Models `probeDoH3Request`: an empty bootstrap list yields
`context.DeadlineExceeded` without any request; otherwise the loop above. -/
def probeDoH3Request (rt3 : H3Req → Except GoErr Nat) (endpoint : String)
    (bootstrapIPs : List String) : Option GoErr × List H3Req :=
  if bootstrapIPs.isEmpty then (some GoErr.deadlineExceeded, [])
  else probeDoH3RequestLoop rt3 endpoint bootstrapIPs

/-- Models `SupportsDoH3`: Strategy A (`probeDoH3`) first, Strategy B
(`probeDoH3Request`) only when A returned a non-nil error; true exactly
when one of the two returned nil. The `alpnList` parameter is kept from
the Go signature (it is never read there: the `alpnIncludesH3` helper is
commented out in the source). Besides the boolean, the model returns the
dial trace of A and the request trace of B. -/
def SupportsDoH3 (dial : String → Option GoErr) (rt3 : H3Req → Except GoErr Nat)
    (endpoint : String) (bootstrapIPs : List String) (alpnList : List String) :
    Bool × List String × List H3Req :=
  match probeDoH3 dial bootstrapIPs with
  | (none, tA) => (true, tA, [])
  | (some _, tA) =>
    match probeDoH3Request rt3 endpoint bootstrapIPs with
    | (none, tB) => (true, tA, tB)
    | (some _, tB) => (false, tA, tB)

/-- An HTTP request as `DOHEndpoint.Exchange` builds it. -/
structure HTTPRequest where
  method : String
  url : String
  contentType : String
  body : List Nat
  deriving DecidableEq

/-- The request `Exchange` hands to `RoundTrip`: a POST of the payload to
the synthetic `https://nowhere` authority plus the endpoint's path, with
the DNS media type. -/
def mkExchangeReq (e : DOHEndpoint) (payload : List Nat) : HTTPRequest :=
  { method := "POST"
    url := "https://nowhere" ++ e.Path
    contentType := "application/dns-message"
    body := payload }

/-- The response `Exchange` observes when `RoundTrip` returns a nil error:
the status code, the bytes the single `res.Body.Read(buf)` call yields,
and the error that read call returns alongside them (oracle data). -/
structure HTTPResponse where
  StatusCode : Nat
  bodyBytes : List Nat
  readErr : Option GoErr
  deriving DecidableEq

/-- Models the single `res.Body.Read(buf)` call: the yielded bytes are
written over the front of the caller's buffer, the count is returned, and
the rest of the buffer is untouched. -/
def bodyRead (body buf : List Nat) : Nat × List Nat :=
  let chunk := body.take buf.length
  (chunk.length, chunk ++ buf.drop chunk.length)

/-- The errors `DOHEndpoint.Exchange` can return, one constructor per
`fmt.Errorf` site: the enriched certificate-authority failure, the plain
round-trip wrap, the non-200 status error carrying the numeric code, and
the wrapped read failure. -/
inductive ExchangeError where
  | roundtripCert (subject issuer : String)
  | roundtrip (e : GoErr)
  | status (code : Nat)
  | readFail (e : GoErr)
  deriving DecidableEq

/-- Models `DOHEndpoint.Exchange`. The whole `e.RoundTrip(req)` call
(transport resolution plus dispatch) is the `rt` oracle; `buf` is the
caller's buffer and the last component of the result is its final
contents. On a round-trip error the error is wrapped (enriched with the
certificate subject and issuer for an unknown-authority failure); on a
non-200 status a status error is returned; on 200 the body is read into
the buffer, with `io.EOF` tolerated. -/
def Exchange (rt : HTTPRequest → Except GoErr HTTPResponse) (e : DOHEndpoint)
    (payload buf : List Nat) : Nat × Option ExchangeError × List Nat :=
  match rt (mkExchangeReq e payload) with
  | Except.error err =>
    match err with
    | GoErr.unknownAuthority subject issuer =>
      (0, some (ExchangeError.roundtripCert subject issuer), buf)
    | e' => (0, some (ExchangeError.roundtrip e'), buf)
  | Except.ok res =>
    if res.StatusCode ≠ 200 then
      (0, some (ExchangeError.status res.StatusCode), buf)
    else
      let r := bodyRead res.bodyBytes buf
      match res.readErr with
      | some err =>
        if err = GoErr.eof then (r.fst, none, r.snd)
        else (r.fst, some (ExchangeError.readFail err), r.snd)
      | none => (r.fst, none, r.snd)

/-- The input prefix a sequential first-success-wins loop consumes: every
element up to and including the first one satisfying `p`, or the whole
list when none does. -/
def takeThrough {α : Type} (p : α → Bool) : List α → List α
  | [] => []
  | a :: l => if p a then [a] else a :: takeThrough p l

/-- Splits a character list at its last colon (colon excluded), or `none`
when there is no colon. -/
def splitAtLastColon : List Char → Option (List Char × List Char)
  | [] => none
  | c :: rest =>
    match splitAtLastColon rest with
    | some r => some (c :: r.fst, r.snd)
    | none => if c = ':' then some ([], rest) else none

/-- Modelled from the spec: an address "carries an explicit port" when it
splits as host:port in the sense of Go `net.SplitHostPort` — a non-empty
port after the last colon, with a colon-containing host enclosed in square
brackets. Used only to compare the spec's port guarantee against
`endpointAddrs`; the code itself never parses ports. -/
def hasExplicitPort (s : String) : Bool :=
  match splitAtLastColon s.toList with
  | none => false
  | some r =>
    !r.snd.isEmpty &&
      (if r.fst.head? = some '[' then r.fst.getLast? = some ']'
       else !r.fst.contains ':')

/-- Short-circuit behaviour of the Strategy A loop: when the first `k`
dials fail and the next one succeeds, the loop returns success having
dialed exactly the first `k + 1` joined addresses, in order. -/
theorem probeDoH3Loop_shortcircuit (dial : String → Option GoErr) :
    ∀ (ips : List String) (k : Nat) (acc : Option GoErr) (hk : k < ips.length),
      (∀ i, (hi : i < k) →
        (dial (joinHostPort (ips.get ⟨i, Nat.lt_trans hi hk⟩) "443")).isSome = true) →
      dial (joinHostPort (ips.get ⟨k, hk⟩) "443") = none →
      probeDoH3Loop dial ips acc =
        (none, (ips.take (k + 1)).map (fun ip => joinHostPort ip "443")) := by
  intro ips
  induction ips with
  | nil =>
    intro k acc hk
    exact absurd hk (by simp)
  | cons ip rest ih =>
    intro k acc hk hfail hsucc
    match k with
    | 0 =>
      have h0 : dial (joinHostPort ip "443") = none := hsucc
      simp only [probeDoH3Loop, h0]
      rfl
    | Nat.succ k' =>
      have h0 : (dial (joinHostPort ip "443")).isSome = true :=
        hfail 0 (Nat.succ_pos k')
      obtain ⟨err, herr⟩ := Option.isSome_iff_exists.mp h0
      have hk' : k' < rest.length := Nat.lt_of_succ_lt_succ hk
      have hrest := ih k' (some err) hk'
        (fun i hi => hfail (i + 1) (Nat.succ_lt_succ hi)) hsucc
      simp only [probeDoH3Loop, herr, hrest]
      rfl

/-- C2: when the handshake succeeds at index `k` (zero-based) and fails
at every earlier index, `probeDoH3` succeeds and its dial trace is
exactly the first `k + 1` addresses in list order, each joined with port
443 — later addresses are never attempted. -/
theorem probeDoH3_shortcircuit (dial : String → Option GoErr) (ips : List String)
    (k : Nat) (hk : k < ips.length)
    (hfail : ∀ i, (hi : i < k) →
      (dial (joinHostPort (ips.get ⟨i, Nat.lt_trans hi hk⟩) "443")).isSome = true)
    (hsucc : dial (joinHostPort (ips.get ⟨k, hk⟩) "443") = none) :
    probeDoH3 dial ips =
      (none, (ips.take (k + 1)).map (fun ip => joinHostPort ip "443")) := by
  have hne : ¬ ips.isEmpty = true := by
    cases ips with
    | nil => exact absurd hk (by simp)
    | cons a l => simp
  unfold probeDoH3
  rw [if_neg hne]
  exact probeDoH3Loop_shortcircuit dial ips k none hk hfail hsucc

/-- The dial oracle of the C2 witness: only the second address answers. -/
def dialSecond : String → Option GoErr :=
  fun a => if a = "2.2.2.2:443" then none else some (GoErr.other "handshake failed")

/-- C2 witness: with the second address succeeding, exactly the first two
addresses are dialed and the probe succeeds. -/
theorem probeDoH3_shortcircuit_witness :
    probeDoH3 dialSecond ["1.1.1.1", "2.2.2.2", "3.3.3.3"] =
      (none, ["1.1.1.1:443", "2.2.2.2:443"]) := by
  have hk : 1 < (["1.1.1.1", "2.2.2.2", "3.3.3.3"] : List String).length := by decide
  have h := probeDoH3_shortcircuit dialSecond ["1.1.1.1", "2.2.2.2", "3.3.3.3"] 1 hk
    (by
      intro i hi
      have h0 : i = 0 := by omega
      subst h0
      show (dialSecond (joinHostPort "1.1.1.1" "443")).isSome = true
      decide)
    (by
      show dialSecond (joinHostPort "2.2.2.2" "443") = none
      decide)
  rw [h]
  decide

/-- All-failure behaviour of the Strategy A loop: every address is dialed
in order and the result is the last dial's error (the accumulated
`lastErr` when the list is empty). -/
theorem probeDoH3Loop_allfail (dial : String → Option GoErr) :
    ∀ (ips : List String) (acc : Option GoErr),
      (∀ ip ∈ ips, (dial (joinHostPort ip "443")).isSome = true) →
      probeDoH3Loop dial ips acc =
        (((ips.map (fun ip => dial (joinHostPort ip "443"))).getLast?).getD acc,
         ips.map (fun ip => joinHostPort ip "443")) := by
  intro ips
  induction ips with
  | nil =>
    intro acc hfail
    rfl
  | cons ip rest ih =>
    intro acc hfail
    obtain ⟨err, herr⟩ := Option.isSome_iff_exists.mp
      (hfail ip (List.mem_cons_self ip rest))
    have hrest := ih (some err) (fun a ha => hfail a (List.mem_cons_of_mem ip ha))
    simp only [probeDoH3Loop, herr, hrest]
    cases rest with
    | nil => simp [herr]
    | cons b l =>
      simp only [List.map_cons, List.getLast?_cons_cons]
      rfl

/-- `probeDoH3` when every dial fails on a non-empty list: the whole list
is dialed in order and the retained result is the last address's error. -/
theorem probeDoH3_allfail (dial : String → Option GoErr) (ips : List String)
    (hne : ips ≠ [])
    (hfail : ∀ ip ∈ ips, (dial (joinHostPort ip "443")).isSome = true) :
    probeDoH3 dial ips =
      (dial (joinHostPort (ips.getLast hne) "443"),
       ips.map (fun ip => joinHostPort ip "443")) := by
  have hemp : ¬ ips.isEmpty = true := by simp [hne]
  unfold probeDoH3
  rw [if_neg hemp, probeDoH3Loop_allfail dial ips none hfail,
    List.getLast?_map, List.getLast?_eq_getLast ips hne]
  rfl

/-- Full characterization of `probeDoH3Request`: the result is success
exactly when some address's request comes back 200, and the attempt trace
is every address up to and including the first 200, each attempt being
the POST of an empty DNS request to the query path through a transport
scoped to that single address. -/
theorem probeDoH3Request_eq (rt3 : H3Req → Except GoErr Nat) (endpoint : String)
    (ips : List String) :
    probeDoH3Request rt3 endpoint ips =
      ((if ips.any (fun ip => is200 (rt3 (mkH3Req endpoint ip))) then none
        else some GoErr.deadlineExceeded),
       (takeThrough (fun ip => is200 (rt3 (mkH3Req endpoint ip))) ips).map
         (mkH3Req endpoint)) := by
  have hloop : ∀ l : List String,
      probeDoH3RequestLoop rt3 endpoint l =
        ((if l.any (fun ip => is200 (rt3 (mkH3Req endpoint ip))) then none
          else some GoErr.deadlineExceeded),
         (takeThrough (fun ip => is200 (rt3 (mkH3Req endpoint ip))) l).map
           (mkH3Req endpoint)) := by
    intro l
    induction l with
    | nil => rfl
    | cons ip rest ih =>
      by_cases hp : is200 (rt3 (mkH3Req endpoint ip)) = true
      · simp [probeDoH3RequestLoop, takeThrough, hp]
      · simp only [Bool.not_eq_true] at hp
        simp [probeDoH3RequestLoop, takeThrough, hp, ih]
  cases ips with
  | nil => rfl
  | cons ip rest =>
    unfold probeDoH3Request
    rw [if_neg (by simp)]
    exact hloop (ip :: rest)

/-- C3: when the handshake probe fails at every bootstrap address of a
non-empty list, `probeDoH3` retains the last address's error, and
Strategy B runs: `SupportsDoH3` returns true exactly when some address's
single-address HTTP/3 POST of an empty DNS request to the query path
returns status 200 (false when none does), the attempted requests being
the addresses in order up to and including the first 200. -/
theorem supportsDoH3_fallback (dial : String → Option GoErr)
    (rt3 : H3Req → Except GoErr Nat) (endpoint : String)
    (ips alpnList : List String) (hne : ips ≠ [])
    (hfail : ∀ ip ∈ ips, (dial (joinHostPort ip "443")).isSome = true) :
    (probeDoH3 dial ips).fst = dial (joinHostPort (ips.getLast hne) "443") ∧
    (SupportsDoH3 dial rt3 endpoint ips alpnList).fst =
      ips.any (fun ip => is200 (rt3 (mkH3Req endpoint ip))) ∧
    (SupportsDoH3 dial rt3 endpoint ips alpnList).snd.snd =
      (takeThrough (fun ip => is200 (rt3 (mkH3Req endpoint ip))) ips).map
        (mkH3Req endpoint) := by
  have hA := probeDoH3_allfail dial ips hne hfail
  obtain ⟨err, herr⟩ := Option.isSome_iff_exists.mp
    (hfail (ips.getLast hne) (List.getLast_mem hne))
  have hS : SupportsDoH3 dial rt3 endpoint ips alpnList =
      ((if ips.any (fun ip => is200 (rt3 (mkH3Req endpoint ip))) then true else false),
       ips.map (fun ip => joinHostPort ip "443"),
       (takeThrough (fun ip => is200 (rt3 (mkH3Req endpoint ip))) ips).map
         (mkH3Req endpoint)) := by
    unfold SupportsDoH3
    rw [hA, herr, probeDoH3Request_eq]
    by_cases hb : ips.any (fun ip => is200 (rt3 (mkH3Req endpoint ip))) = true
    · simp [hb]
    · simp only [Bool.not_eq_true] at hb
      simp [hb]
  refine ⟨by rw [hA], ?_, ?_⟩
  · rw [hS]
    by_cases hb : ips.any (fun ip => is200 (rt3 (mkH3Req endpoint ip))) = true <;>
      simp [hb]
  · rw [hS]

/-- The dial oracle of the C3 witness: every handshake is refused. -/
def dialRefuse : String → Option GoErr :=
  fun _ => some (GoErr.other "refused")

/-- The request oracle of the C3 witness: only the transport scoped to
the second address returns a 200. -/
def rtSecond200 : H3Req → Except GoErr Nat :=
  fun r => if r.ip = "9.9.9.9" then Except.ok 200 else Except.error GoErr.deadlineExceeded

/-- C3 witness: all handshakes fail, the last error is retained, and the
application-layer probe succeeds at the second address, making
`SupportsDoH3` true after POSTing to exactly the first two addresses. -/
theorem supportsDoH3_fallback_witness :
    (probeDoH3 dialRefuse ["1.1.1.1", "9.9.9.9", "8.8.8.8"]).fst =
      some (GoErr.other "refused") ∧
    (SupportsDoH3 dialRefuse rtSecond200 "dns.example"
        ["1.1.1.1", "9.9.9.9", "8.8.8.8"] ["h2"]).fst = true ∧
    (SupportsDoH3 dialRefuse rtSecond200 "dns.example"
        ["1.1.1.1", "9.9.9.9", "8.8.8.8"] ["h2"]).snd.snd =
      [mkH3Req "dns.example" "1.1.1.1", mkH3Req "dns.example" "9.9.9.9"] := by
  have h := supportsDoH3_fallback dialRefuse rtSecond200 "dns.example"
    ["1.1.1.1", "9.9.9.9", "8.8.8.8"] ["h2"] (by decide) (fun ip _ => rfl)
  refine ⟨by rw [h.1]; rfl, by rw [h.2.1]; decide, by rw [h.2.2]; decide⟩

/-- C8: when the underlying round trip succeeds with a status other than
200, `Exchange` returns zero bytes written, an error carrying the numeric
status code, and the caller's buffer exactly as it was (no response bytes
are read into it). -/
theorem exchange_non200 (rt : HTTPRequest → Except GoErr HTTPResponse)
    (e : DOHEndpoint) (payload buf : List Nat) (res : HTTPResponse)
    (hok : rt (mkExchangeReq e payload) = Except.ok res)
    (hst : res.StatusCode ≠ 200) :
    Exchange rt e payload buf = (0, some (ExchangeError.status res.StatusCode), buf) := by
  unfold Exchange
  rw [hok]
  simp [hst]

/-- The round-trip oracle of the C8 witness: every request gets a 404
response with a non-empty body. -/
def rt404 : HTTPRequest → Except GoErr HTTPResponse :=
  fun _ => Except.ok { StatusCode := 404, bodyBytes := [9, 9], readErr := none }

/-- C8 witness: a 404 response yields zero bytes, a status-404 error, and
an untouched buffer. -/
theorem exchange_non200_witness :
    Exchange rt404
        { Hostname := "example.com", Path := "/dns-query", Bootstrap := [], ALPN := [],
          DoH3Supported := false, FastestIP := "", onceDone := false, transport := none }
        [1, 2, 3] [7, 7, 7] =
      (0, some (ExchangeError.status 404), [7, 7, 7]) :=
  exchange_non200 rt404
    { Hostname := "example.com", Path := "/dns-query", Bootstrap := [], ALPN := [],
      DoH3Supported := false, FastestIP := "", onceDone := false, transport := none }
    [1, 2, 3] [7, 7, 7]
    { StatusCode := 404, bodyBytes := [9, 9], readErr := none } rfl (by decide)

/-- C6: with an empty bootstrap list, `probeDoH3` and `probeDoH3Request`
both report `context.DeadlineExceeded` immediately with an empty attempt
trace (no dial and no request is performed), and `SupportsDoH3` returns
false with both traces empty, for every hostname and ALPN list. -/
theorem supportsDoH3_empty_bootstrap (dial : String → Option GoErr)
    (rt3 : H3Req → Except GoErr Nat) (endpoint : String) (alpnList : List String) :
    probeDoH3 dial [] = (some GoErr.deadlineExceeded, []) ∧
    probeDoH3Request rt3 endpoint [] = (some GoErr.deadlineExceeded, []) ∧
    SupportsDoH3 dial rt3 endpoint [] alpnList = (false, [], []) :=
  ⟨rfl, rfl, rfl⟩

/-- On a fresh endpoint the initialization step stores exactly the
transport the capability flag and hostname select. Shared helper for the
claims about first-call construction. -/
theorem resolveTransport_transport_fresh (e : DOHEndpoint)
    (h1 : e.onceDone = false) (h2 : e.transport = none) :
    (resolveTransport e).transport =
      some (if e.DoH3Supported then
              EndpointTransport.h3
                (if equalFold e.Hostname "dns.nextdns.io" then "doh3.dns.nextdns.io"
                 else e.Hostname)
                e.Path (endpointAddrs e)
            else EndpointTransport.h2 e.Hostname e.Path (endpointAddrs e)) := by
  unfold resolveTransport
  simp only [h1, h2, Bool.false_eq_true, if_false, Option.isSome_none]
  split_ifs <;> simp_all

/-- After `resolveTransport` the once flag is always set. -/
theorem resolveTransport_onceDone (e : DOHEndpoint) :
    (resolveTransport e).onceDone = true := by
  unfold resolveTransport
  split_ifs <;> simp_all

/-- `resolveTransport` is the identity on a state whose once flag is set. -/
theorem resolveTransport_of_onceDone (e : DOHEndpoint) (h : e.onceDone = true) :
    resolveTransport e = e := by
  unfold resolveTransport
  simp [h]

/-- `resolveTransport` is idempotent: a second call changes nothing. -/
theorem resolveTransport_idem (e : DOHEndpoint) :
    resolveTransport (resolveTransport e) = resolveTransport e :=
  resolveTransport_of_onceDone _ (resolveTransport_onceDone e)

/-- C1: on a fresh endpoint (once not yet run, no transport stored) the
first `RoundTrip` call's initialization step constructs and stores the
transport handle, and after that any number of further calls leaves the
state — in particular the stored handle — exactly as the first call left
it: the handle is built at most once, never rebuilt, and never observed
unset once initialization has completed. `sync.Once` serializes racing
first callers, so concurrent first use is the iteration of this step. -/
theorem resolveTransport_constructs_once (e : DOHEndpoint) (n : Nat)
    (h1 : e.onceDone = false) (h2 : e.transport = none) :
    (resolveTransport e).transport.isSome = true ∧
    resolveTransport^[n] (resolveTransport e) = resolveTransport e := by
  constructor
  · rw [resolveTransport_transport_fresh e h1 h2]
    rfl
  · induction n with
    | zero => rfl
    | succ k ih =>
      rw [Function.iterate_succ_apply, resolveTransport_idem, ih]

/-- C1 witness at a concrete fresh endpoint. -/
theorem resolveTransport_constructs_once_witness :
    (resolveTransport
        { Hostname := "example.com", Path := "/dns-query", Bootstrap := ["1.1.1.1"],
          ALPN := [], DoH3Supported := false, FastestIP := "",
          onceDone := false, transport := none }).transport.isSome = true ∧
    resolveTransport^[5]
        (resolveTransport
          { Hostname := "example.com", Path := "/dns-query", Bootstrap := ["1.1.1.1"],
            ALPN := [], DoH3Supported := false, FastestIP := "",
            onceDone := false, transport := none }) =
      resolveTransport
        { Hostname := "example.com", Path := "/dns-query", Bootstrap := ["1.1.1.1"],
          ALPN := [], DoH3Supported := false, FastestIP := "",
          onceDone := false, transport := none } :=
  resolveTransport_constructs_once _ 5 rfl rfl

/-- C7: on first construction, a set `DoH3Supported` flag yields an
HTTP/3 transport over the ordered address list with `dns.nextdns.io`
(case-insensitively) rewritten to `doh3.dns.nextdns.io`, while a clear
flag yields an HTTP/2 transport over the ordered address list with the
original hostname unchanged. -/
theorem resolveTransport_variant (e : DOHEndpoint)
    (h1 : e.onceDone = false) (h2 : e.transport = none) :
    (resolveTransport e).transport =
      some (if e.DoH3Supported then
              EndpointTransport.h3
                (if equalFold e.Hostname "dns.nextdns.io" then "doh3.dns.nextdns.io"
                 else e.Hostname)
                e.Path (endpointAddrs e)
            else EndpointTransport.h2 e.Hostname e.Path (endpointAddrs e)) :=
  resolveTransport_transport_fresh e h1 h2

/-- C7 witness: a DoH3-capable endpoint whose hostname needs the rewrite
gets the H3 transport bound to the rewritten hostname and the normalized
ordered addresses. -/
theorem resolveTransport_variant_witness :
    (resolveTransport
        { Hostname := "DNS.NextDNS.io", Path := "/dns-query", Bootstrap := ["1.1.1.1"],
          ALPN := [], DoH3Supported := true, FastestIP := "",
          onceDone := false, transport := none }).transport =
      some (EndpointTransport.h3 "doh3.dns.nextdns.io" "/dns-query" ["1.1.1.1:443"]) := by
  have h := resolveTransport_variant
    { Hostname := "DNS.NextDNS.io", Path := "/dns-query", Bootstrap := ["1.1.1.1"],
      ALPN := [], DoH3Supported := true, FastestIP := "",
      onceDone := false, transport := none } rfl rfl
  rw [h]
  decide

/-- C9: when the first initialization runs on a DoH3-capable endpoint
whose hostname folds to `dns.nextdns.io`, the endpoint's `Hostname` field
is permanently mutated to `doh3.dns.nextdns.io` (later calls change
nothing), so the canonical text form produced by `String()` shows the
rewritten hostname, every later `Equal` comparison behaves as if the
endpoint had been created with the rewritten hostname, and the endpoint is
no longer structurally equal to its own pre-exchange value. -/
theorem resolveTransport_hostname_rewrite (e : DOHEndpoint)
    (h1 : e.onceDone = false) (h2 : e.transport = none)
    (h3 : e.DoH3Supported = true)
    (h4 : equalFold e.Hostname "dns.nextdns.io" = true) :
    (resolveTransport e).Hostname = "doh3.dns.nextdns.io" ∧
    resolveTransport (resolveTransport e) = resolveTransport e ∧
    DOHEndpoint.String' (resolveTransport e) =
      (if e.Bootstrap.length != 0 then
        "https://doh3.dns.nextdns.io" ++ e.Path ++ "#" ++ stringsJoin "," e.Bootstrap
       else "https://doh3.dns.nextdns.io" ++ e.Path) ∧
    (∀ e2, DOHEndpoint.Equal (resolveTransport e) e2 =
      DOHEndpoint.Equal { e with Hostname := "doh3.dns.nextdns.io" } e2) ∧
    DOHEndpoint.Equal (resolveTransport e) e = false := by
  have hne : e.Hostname ≠ "doh3.dns.nextdns.io" := by
    intro hh
    rw [hh] at h4
    exact absurd h4 (by decide)
  have he : resolveTransport e =
      { e with Hostname := "doh3.dns.nextdns.io",
               transport := some (EndpointTransport.h3 "doh3.dns.nextdns.io" e.Path
                 (endpointAddrs e)),
               onceDone := true } := by
    unfold resolveTransport
    simp [h1, h2, h3, h4]
  refine ⟨by rw [he], resolveTransport_idem e, ?_, ?_, ?_⟩
  · rw [he]
    unfold DOHEndpoint.String'
    rfl
  · intro e2
    rw [he]
    unfold DOHEndpoint.Equal
    rfl
  · rw [he]
    unfold DOHEndpoint.Equal
    have : ("doh3.dns.nextdns.io" != e.Hostname) = true := by
      simp [bne_iff_ne]
      exact fun hh => hne hh.symm
    simp [this]

/-- C9 witness at a concrete endpoint with mixed-case hostname. -/
theorem resolveTransport_hostname_rewrite_witness :
    (resolveTransport
        { Hostname := "DNS.NextDNS.io", Path := "/p", Bootstrap := ["1.1.1.1", "9.9.9.9"],
          ALPN := [], DoH3Supported := true, FastestIP := "",
          onceDone := false, transport := none }).Hostname = "doh3.dns.nextdns.io" ∧
    DOHEndpoint.String'
        (resolveTransport
          { Hostname := "DNS.NextDNS.io", Path := "/p", Bootstrap := ["1.1.1.1", "9.9.9.9"],
            ALPN := [], DoH3Supported := true, FastestIP := "",
            onceDone := false, transport := none }) =
      "https://doh3.dns.nextdns.io/p#1.1.1.1,9.9.9.9" ∧
    DOHEndpoint.Equal
        (resolveTransport
          { Hostname := "DNS.NextDNS.io", Path := "/p", Bootstrap := ["1.1.1.1", "9.9.9.9"],
            ALPN := [], DoH3Supported := true, FastestIP := "",
            onceDone := false, transport := none })
        { Hostname := "DNS.NextDNS.io", Path := "/p", Bootstrap := ["1.1.1.1", "9.9.9.9"],
          ALPN := [], DoH3Supported := true, FastestIP := "",
          onceDone := false, transport := none } = false := by
  have h := resolveTransport_hostname_rewrite
    { Hostname := "DNS.NextDNS.io", Path := "/p", Bootstrap := ["1.1.1.1", "9.9.9.9"],
      ALPN := [], DoH3Supported := true, FastestIP := "",
      onceDone := false, transport := none } rfl rfl rfl (by decide)
  refine ⟨h.1, ?_, h.2.2.2.2⟩
  rw [h.2.2.1]
  decide

/-- C4: with a non-empty preferred (fastest) address, `endpointAddrs`
puts the normalized preferred address exactly once and first, the
remaining bootstrap addresses (normalized) follow in their original
relative order with every duplicate of the preferred address removed, and
when the normalized preferred address is absent from the normalized
bootstrap list the result is the preferred address followed by the whole
bootstrap list. -/
theorem endpointAddrs_fastest (e : DOHEndpoint) (hf : e.FastestIP ≠ "") :
    endpointAddrs e =
      normAddr e.FastestIP ::
        (e.Bootstrap.map normAddr).filter (fun a => a != normAddr e.FastestIP) ∧
    (endpointAddrs e).head? = some (normAddr e.FastestIP) ∧
    (endpointAddrs e).count (normAddr e.FastestIP) = 1 ∧
    (normAddr e.FastestIP ∉ e.Bootstrap.map normAddr →
      endpointAddrs e = normAddr e.FastestIP :: e.Bootstrap.map normAddr) := by
  have he : endpointAddrs e =
      normAddr e.FastestIP ::
        (e.Bootstrap.map normAddr).filter (fun a => a != normAddr e.FastestIP) := by
    unfold endpointAddrs
    simp [hf]
  refine ⟨he, by rw [he]; rfl, ?_, ?_⟩
  · rw [he, List.count_cons_self]
    have h0 : ((e.Bootstrap.map normAddr).filter
        (fun a => a != normAddr e.FastestIP)).count (normAddr e.FastestIP) = 0 := by
      rw [List.count_eq_zero]
      intro hmem
      have hp := (List.mem_filter.mp hmem).2
      simp at hp
    omega
  · intro hno
    rw [he, List.filter_eq_self.mpr]
    intro a ha
    exact bne_iff_ne.mpr (fun hEq => hno (hEq ▸ ha))

/-- C4 witness: preferred address absent from the bootstrap list. -/
theorem endpointAddrs_fastest_witness :
    endpointAddrs
        { Hostname := "h", Path := "/p", Bootstrap := ["1.1.1.1", "2.2.2.2:53"],
          ALPN := [], DoH3Supported := false, FastestIP := "8.8.8.8",
          onceDone := false, transport := none } =
      ["8.8.8.8:443", "1.1.1.1:443", "2.2.2.2:53"] ∧
    (endpointAddrs
        { Hostname := "h", Path := "/p", Bootstrap := ["1.1.1.1", "2.2.2.2:53"],
          ALPN := [], DoH3Supported := false, FastestIP := "8.8.8.8",
          onceDone := false, transport := none }).count "8.8.8.8:443" = 1 := by
  have h := endpointAddrs_fastest
    { Hostname := "h", Path := "/p", Bootstrap := ["1.1.1.1", "2.2.2.2:53"],
      ALPN := [], DoH3Supported := false, FastestIP := "8.8.8.8",
      onceDone := false, transport := none } (by decide)
  constructor
  · rw [h.2.2.2 (by decide)]
    decide
  · have hc := h.2.2.1
    rw [show normAddr "8.8.8.8" = "8.8.8.8:443" from by decide] at hc
    exact hc

/-- The endpoint refuting C5: one bare IPv6 bootstrap literal, which
contains colons but no port. -/
def ipv6Endpoint : DOHEndpoint :=
  { Hostname := "dns.nextdns.io", Path := "/", Bootstrap := ["::1"], ALPN := [],
    DoH3Supported := false, FastestIP := "", onceDone := false, transport := none }

/-- C5 counterexample: on the bootstrap list `["::1"]`, `endpointAddrs`
returns `["::1"]` unchanged — an element that carries no explicit port and
to which port 443 was not appended although the input lacks one — so the
claim that every returned element carries an explicit port is false. -/
theorem endpointAddrs_ipv6_no_port :
    endpointAddrs ipv6Endpoint = ["::1"] ∧
    hasExplicitPort "::1" = false ∧
    ¬ (∀ a ∈ endpointAddrs ipv6Endpoint, hasExplicitPort a = true) := by
  decide

/-- C5 as amended: elements are normalized by colon presence, not by real
port presence — port 443 (as `":443"`) is appended exactly to input
addresses containing no colon, while an address already containing a colon
(a bare IPv6 literal included) passes through unchanged; the full result
is the colon-normalized bootstrap list behind the normalized preferred
address (when one is set, with its duplicates filtered out), and an empty
bootstrap list with no preferred address yields the empty list. -/
theorem endpointAddrs_colon_normalized (e : DOHEndpoint) :
    endpointAddrs e =
      (if e.FastestIP ≠ "" then
        normAddr e.FastestIP ::
          (e.Bootstrap.map normAddr).filter (fun a => a != normAddr e.FastestIP)
       else e.Bootstrap.map normAddr) ∧
    (∀ ip, containsColon ip = false → normAddr ip = ip ++ ":443") ∧
    (∀ ip, containsColon ip = true → normAddr ip = ip) ∧
    (e.Bootstrap = [] → e.FastestIP = "" → endpointAddrs e = []) := by
  refine ⟨?_, ?_, ?_, ?_⟩
  · unfold endpointAddrs
    split_ifs <;> rfl
  · intro ip hip
    unfold normAddr joinHostPort
    rw [if_neg (by simp [hip]), if_neg (by simp [hip]), String.append_assoc]
    rfl
  · intro ip hip
    unfold normAddr
    rw [if_pos hip]
  · intro hb hfi
    unfold endpointAddrs
    simp [hb, hfi]

/-- C5 amended witness at concrete inputs: an IPv4 literal gets `:443`
appended, an already-ported address and a bare IPv6 literal pass through,
and the empty endpoint yields the empty list. -/
theorem endpointAddrs_colon_normalized_witness :
    normAddr "9.9.9.9" = "9.9.9.9:443" ∧
    normAddr "9.9.9.9:53" = "9.9.9.9:53" ∧
    normAddr "::1" = "::1" ∧
    endpointAddrs
        { Hostname := "h", Path := "", Bootstrap := [], ALPN := [],
          DoH3Supported := false, FastestIP := "",
          onceDone := false, transport := none } = [] := by
  refine ⟨?_, ?_, ?_, ?_⟩
  · exact (endpointAddrs_colon_normalized ipv6Endpoint).2.1 "9.9.9.9" (by decide)
  · exact (endpointAddrs_colon_normalized ipv6Endpoint).2.2.1 "9.9.9.9:53" (by decide)
  · exact (endpointAddrs_colon_normalized ipv6Endpoint).2.2.1 "::1" (by decide)
  · exact (endpointAddrs_colon_normalized
      { Hostname := "h", Path := "", Bootstrap := [], ALPN := [],
        DoH3Supported := false, FastestIP := "",
        onceDone := false, transport := none }).2.2.2 rfl rfl

/-- C10: `SupportsDoH3` returns the identical result (boolean and attempt
traces alike) for any two values of its `alpnList` argument: the
advertised ALPN list has no influence on the outcome or on which probes
are attempted. -/
theorem supportsDoH3_alpn_irrelevant (dial : String → Option GoErr)
    (rt3 : H3Req → Except GoErr Nat) (endpoint : String)
    (bootstrapIPs alpn1 alpn2 : List String) :
    SupportsDoH3 dial rt3 endpoint bootstrapIPs alpn1 =
      SupportsDoH3 dial rt3 endpoint bootstrapIPs alpn2 :=
  rfl

end NextDNS
